import Mathlib

/-!
Shallow embedding of the ticket-tracker persistence layer (src/db.py).

Tickets and comments are rows of two tables; the SQLite database is a
record of both tables together with the AUTOINCREMENT counters.  SQL
fragments are translated construct by construct:

* `LIKE` is SQLite's default `LIKE`: ASCII-case-insensitive, with `%`
  matching any character sequence and `_` matching one character.
* `ORDER BY` sorts by the given key; ties are left in a fixed order
  (a stable insertion sort), one refinement of SQLite's unspecified
  tie order.
* Python truthiness (`if status:`) makes an absent or empty-string
  filter inert.
-/

namespace TicketsDB

/-- ASCII lower-casing, as used by SQLite's default `LIKE` (only A–Z fold). -/
def asciiLower (c : Char) : Char :=
  if c.toNat ≥ 65 ∧ c.toNat ≤ 90 then Char.ofNat (c.toNat + 32) else c

/-- Lower-case a character list. -/
def lowerL (l : List Char) : List Char := l.map asciiLower

/-- Character comparison of SQLite `LIKE`: ASCII-case-insensitive equality. -/
def likeEqChar (p c : Char) : Bool := asciiLower p == asciiLower c

/-- SQLite `LIKE` pattern matching on character lists: the pattern is the
first argument; `%` matches any sequence, `_` any single character, other
characters match ASCII-case-insensitively. -/
def likeMatch : List Char → List Char → Bool
  | [], s => s.isEmpty
  | p :: ps, s =>
    if p = '%' then s.tails.any fun t => likeMatch ps t
    else
      match s with
      | [] => false
      | c :: cs => if p = '_' then likeMatch ps cs else likeEqChar p c && likeMatch ps cs

/-- String-level `LIKE`: `s LIKE pat`. -/
def strLike (pat s : String) : Bool := likeMatch pat.data s.data

/-- The needle occurs contiguously inside the haystack. -/
def OccursIn (needle hay : List Char) : Prop := ∃ a b, hay = a ++ needle ++ b

/-- Boolean test whether `n` begins the list `h`. -/
def leadsWith : List Char → List Char → Bool
  | [], _ => true
  | _ :: _, [] => false
  | a :: as, b :: bs => a == b && leadsWith as bs

/-- Boolean test for `OccursIn`. -/
def occursB (needle hay : List Char) : Bool := hay.tails.any (leadsWith needle)

theorem leadsWith_iff (n h : List Char) : leadsWith n h = true ↔ ∃ b, h = n ++ b := by
  induction n generalizing h with
  | nil => simp [leadsWith]
  | cons a as ih =>
    cases h with
    | nil => simp [leadsWith]
    | cons b bs =>
      simp only [leadsWith, Bool.and_eq_true, beq_iff_eq, ih, List.cons_append,
        List.cons.injEq]
      constructor
      · rintro ⟨rfl, c, rfl⟩; exact ⟨c, rfl, rfl⟩
      · rintro ⟨c, rfl, rfl⟩; exact ⟨rfl, c, rfl⟩

theorem occursB_iff (n h : List Char) : occursB n h = true ↔ OccursIn n h := by
  simp only [occursB, List.any_eq_true, List.mem_tails, leadsWith_iff, OccursIn]
  constructor
  · rintro ⟨t, ⟨a, rfl⟩, b, rfl⟩; exact ⟨a, b, (List.append_assoc a n b).symm⟩
  · rintro ⟨a, b, rfl⟩
    exact ⟨n ++ b, ⟨a, (List.append_assoc a n b).symm⟩, b, rfl⟩

instance (n h : List Char) : Decidable (OccursIn n h) :=
  decidable_of_iff (occursB n h = true) (occursB_iff n h)

/-- VALID_STATUSES from src/db.py. -/
def VALID_STATUSES : List String := ["pending", "in_progress", "ready_to_test", "closed"]

/-- VALID_PRIORITIES from src/db.py. -/
def VALID_PRIORITIES : List String := ["high", "medium", "low"]

/-- A row of the `tickets` table. -/
structure Ticket where
  id : Nat
  project : String
  title : String
  description : String
  status : String
  priority : String
  tags : String
  created_at : String
  updated_at : String
deriving Repr, DecidableEq

/-- A row of the `comments` table. -/
structure Comment where
  id : Nat
  ticket_id : Nat
  author : String
  content : String
  created_at : String
deriving Repr, DecidableEq

/-- The persisted store: both tables plus the AUTOINCREMENT counters
(SQLite AUTOINCREMENT never reuses an id, even after deletes). -/
structure DB where
  tickets : List Ticket
  comments : List Comment
  nextTicketId : Nat
  nextCommentId : Nat
deriving Repr, DecidableEq

/-- The freshly initialised store: empty tables, AUTOINCREMENT at 1. -/
def emptyDB : DB := ⟨[], [], 1, 1⟩

/-- Validation failures (`raise ValueError` in src/db.py). -/
inductive DBErr where
  | invalidStatus (s : String)
  | invalidPriority (p : String)
deriving Repr, DecidableEq

/-- The rank of `ORDER BY CASE priority WHEN 'high' THEN 1 WHEN 'medium' THEN 2 ELSE 3 END`. -/
def priorityRank (p : String) : Nat :=
  if p = "high" then 1 else if p = "medium" then 2 else 3

/-- The ticket ordering of list_tickets and search_tickets: priority rank
ascending, then created_at descending. -/
def ticketRel (a b : Ticket) : Prop :=
  priorityRank a.priority < priorityRank b.priority ∨
    (priorityRank a.priority = priorityRank b.priority ∧ b.created_at ≤ a.created_at)

instance : DecidableRel ticketRel := fun a b => by
  unfold ticketRel; infer_instance

instance : IsTotal Ticket ticketRel := by
  constructor
  intro a b
  rcases Nat.lt_trichotomy (priorityRank a.priority) (priorityRank b.priority) with h | h | h
  · exact Or.inl (Or.inl h)
  · rcases le_total b.created_at a.created_at with h2 | h2
    · exact Or.inl (Or.inr ⟨h, h2⟩)
    · exact Or.inr (Or.inr ⟨h.symm, h2⟩)
  · exact Or.inr (Or.inl h)

instance : IsTrans Ticket ticketRel := by
  constructor
  intro a b c hab hbc
  rcases hab with h1 | ⟨h1, h1c⟩ <;> rcases hbc with h2 | ⟨h2, h2c⟩
  · exact Or.inl (h1.trans h2)
  · exact Or.inl (h2 ▸ h1)
  · exact Or.inl (h1 ▸ h2)
  · exact Or.inr ⟨h1.trans h2, le_trans h2c h1c⟩

/-- The comment ordering `ORDER BY created_at ASC`. -/
def commentRel (a b : Comment) : Prop := a.created_at ≤ b.created_at

instance : DecidableRel commentRel := fun a b => by
  unfold commentRel; infer_instance

instance : IsTotal Comment commentRel :=
  ⟨fun a b => le_total a.created_at b.created_at⟩

instance : IsTrans Comment commentRel :=
  ⟨fun _ _ _ h1 h2 => le_trans h1 h2⟩

/-- Python truthiness of an optional string: `if s:`. -/
def truthy : Option String → Bool
  | none => false
  | some s => !(s == "")

/-- A ticket together with its comments, as returned by get_ticket. -/
structure TicketView where
  ticket : Ticket
  comments : List Comment
deriving Repr, DecidableEq

/-- get_ticket from src/db.py: the first row with the given id, plus its
comments ordered by created_at ascending; `none` when absent. -/
def get_ticket (ticket_id : Nat) (db : DB) : Option TicketView :=
  match db.tickets.find? (fun t => t.id == ticket_id) with
  | none => none
  | some t =>
    some ⟨t, List.insertionSort commentRel
      (db.comments.filter (fun c => c.ticket_id == ticket_id))⟩

/-- create_ticket from src/db.py: validate priority, insert the row with
status pending and created_at = updated_at = now, return get_ticket of the
fresh id.  The pair is (state after the call, Python return or raise). -/
def create_ticket (project title description priority tags now : String)
    (db : DB) : DB × Except DBErr (Option TicketView) :=
  if ¬ VALID_PRIORITIES.contains priority then
    (db, Except.error (DBErr.invalidPriority priority))
  else
    let t : Ticket :=
      ⟨db.nextTicketId, project, title, description, "pending", priority, tags, now, now⟩
    let db2 : DB := { db with
      tickets := db.tickets ++ [t],
      nextTicketId := db.nextTicketId + 1 }
    (db2, Except.ok (get_ticket db.nextTicketId db2))

/-- The WHERE clause list_tickets builds from its optional filters:
exact match on project, status and priority, and the tag test
`(',' || tags || ',') LIKE '%,tag,%'`; a filter that is absent or empty
(Python truthiness) is inert. -/
def matchesListFilters (project status priority tag : Option String)
    (t : Ticket) : Bool :=
  (!truthy project || t.project == project.getD "") &&
  (!truthy status || t.status == status.getD "") &&
  (!truthy priority || t.priority == priority.getD "") &&
  (!truthy tag || strLike ("%," ++ tag.getD "" ++ ",%") ("," ++ t.tags ++ ","))

/-- list_tickets from src/db.py: validate the status filter, then the
priority filter (only when truthy), then return the matching rows ordered
by priority rank and created_at descending. -/
def list_tickets (project status priority tag : Option String) (db : DB) :
    Except DBErr (List Ticket) :=
  if truthy status && !(VALID_STATUSES.contains (status.getD "")) then
    Except.error (DBErr.invalidStatus (status.getD ""))
  else if truthy priority && !(VALID_PRIORITIES.contains (priority.getD "")) then
    Except.error (DBErr.invalidPriority (priority.getD ""))
  else
    Except.ok (List.insertionSort ticketRel
      (db.tickets.filter (matchesListFilters project status priority tag)))

/-- The new row update_ticket writes for the addressed ticket: provided
fields replace the old values, updated_at becomes now. -/
def applyUpd (title description status priority tags : Option String)
    (now : String) (t : Ticket) : Ticket :=
  { t with
    title := title.getD t.title,
    description := description.getD t.description,
    status := status.getD t.status,
    priority := priority.getD t.priority,
    tags := tags.getD t.tags,
    updated_at := now }

/-- update_ticket from src/db.py: existence check first (None when the id
is absent); then, while collecting the SET clauses in source order, a
provided status and then a provided priority are validated (a `some`
field counts even when it is the empty string, mirroring `is not None`);
with no clause the ticket is returned untouched; otherwise the row is
rewritten and re-fetched. -/
def update_ticket (ticket_id : Nat)
    (title description status priority tags : Option String)
    (now : String) (db : DB) : DB × Except DBErr (Option TicketView) :=
  match get_ticket ticket_id db with
  | none => (db, Except.ok none)
  | some existing =>
    if status.isSome ∧ ¬ VALID_STATUSES.contains (status.getD "") then
      (db, Except.error (DBErr.invalidStatus (status.getD "")))
    else if priority.isSome ∧ ¬ VALID_PRIORITIES.contains (priority.getD "") then
      (db, Except.error (DBErr.invalidPriority (priority.getD "")))
    else if title.isNone ∧ description.isNone ∧ status.isNone ∧
        priority.isNone ∧ tags.isNone then
      (db, Except.ok (some existing))
    else
      let db2 : DB := { db with
        tickets := db.tickets.map fun t =>
          if t.id == ticket_id then applyUpd title description status priority tags now t
          else t }
      (db2, Except.ok (get_ticket ticket_id db2))

/-- delete_ticket from src/db.py: delete the comments of the id, delete
the ticket rows, and report whether the last DELETE removed a row. -/
def delete_ticket (ticket_id : Nat) (db : DB) : DB × Bool :=
  let existed := db.tickets.any (fun t => t.id == ticket_id)
  ({ db with
      tickets := db.tickets.filter (fun t => !(t.id == ticket_id)),
      comments := db.comments.filter (fun c => !(c.ticket_id == ticket_id)) },
   existed)

/-- add_comment from src/db.py: None when the ticket is absent; otherwise
insert the comment, refresh the owning ticket's updated_at, and return the
comment record built in Python (not re-fetched). -/
def add_comment (ticket_id : Nat) (author content now : String) (db : DB) :
    DB × Option Comment :=
  match get_ticket ticket_id db with
  | none => (db, none)
  | some _ =>
    let c : Comment := ⟨db.nextCommentId, ticket_id, author, content, now⟩
    ({ db with
        comments := db.comments ++ [c],
        nextCommentId := db.nextCommentId + 1,
        tickets := db.tickets.map fun t =>
          if t.id == ticket_id then { t with updated_at := now } else t },
     some c)

/-- get_comments from src/db.py: the comments of the id by created_at
ascending. -/
def get_comments (ticket_id : Nat) (db : DB) : List Comment :=
  List.insertionSort commentRel
    (db.comments.filter (fun c => c.ticket_id == ticket_id))

/-- The rows of `tickets t LEFT JOIN comments c ON c.ticket_id = t.id`:
a ticket without comments yields one row with a NULL comment. -/
def leftJoinRows (db : DB) : List (Ticket × Option Comment) :=
  db.tickets.flatMap fun t =>
    let cs := db.comments.filter (fun c => c.ticket_id == t.id)
    if cs.isEmpty then [(t, none)] else cs.map fun c => (t, some c)

/-- The WHERE disjunction of search_tickets on one join row; a NULL
comment content fails its LIKE test (SQL NULL is not true). -/
def rowMatches (q : String) (r : Ticket × Option Comment) : Bool :=
  strLike ("%" ++ q ++ "%") r.1.title ||
  strLike ("%" ++ q ++ "%") r.1.description ||
  strLike ("%" ++ q ++ "%") r.1.tags ||
  (match r.2 with
   | none => false
   | some c => strLike ("%" ++ q ++ "%") c.content)

/-- search_tickets from src/db.py: over the left join, keep the rows
where the query matches (plus the optional project and status filters on
the ticket), project to the ticket columns, apply DISTINCT, and order as
list_tickets does.  A truthy invalid status raises before the query runs. -/
def search_tickets (q : String) (project status : Option String) (db : DB) :
    Except DBErr (List Ticket) :=
  if truthy status && !(VALID_STATUSES.contains (status.getD "")) then
    Except.error (DBErr.invalidStatus (status.getD ""))
  else
    Except.ok (List.insertionSort ticketRel
      (((leftJoinRows db).filter fun r =>
          rowMatches q r &&
          (!truthy project || r.1.project == project.getD "") &&
          (!truthy status || r.1.status == status.getD "")).map Prod.fst).dedup)

/-! ### LIKE pattern matching: characterisation of `%mid%` patterns -/

theorem likeMatch_star (ps s : List Char) :
    likeMatch ('%' :: ps) s = true ↔ ∃ t, t <:+ s ∧ likeMatch ps t = true := by
  simp [likeMatch, List.any_eq_true, List.mem_tails]

theorem likeMatch_plain_star (mid : List Char)
    (hp : ∀ c ∈ mid, c ≠ '%' ∧ c ≠ '_') (s : List Char) :
    likeMatch (mid ++ ['%']) s = true ↔ ∃ r, lowerL s = lowerL mid ++ r := by
  induction mid generalizing s with
  | nil =>
    simp only [List.nil_append, lowerL, List.map_nil]
    rw [likeMatch_star]
    constructor
    · intro _
      exact ⟨s.map asciiLower, rfl⟩
    · intro _
      exact ⟨[], List.nil_suffix, rfl⟩
  | cons c mid ih =>
    obtain ⟨hc1, hc2⟩ := hp c (List.mem_cons_self c mid)
    have hp2 : ∀ x ∈ mid, x ≠ '%' ∧ x ≠ '_' :=
      fun x hx => hp x (List.mem_cons_of_mem c hx)
    cases s with
    | nil =>
      simp [likeMatch, hc1, lowerL]
    | cons d ds =>
      rw [show (c :: mid) ++ ['%'] = c :: (mid ++ ['%']) from rfl]
      simp only [likeMatch, if_neg hc1, if_neg hc2, Bool.and_eq_true, ih hp2]
      simp only [lowerL, List.map_cons, List.cons_append, List.cons.injEq,
        likeEqChar, beq_iff_eq]
      constructor
      · rintro ⟨h1, r, h2⟩
        exact ⟨r, h1.symm, h2⟩
      · rintro ⟨r, h1, h2⟩
        exact ⟨h1.symm, r, h2⟩

theorem likeMatch_contains (mid s : List Char)
    (hp : ∀ c ∈ mid, c ≠ '%' ∧ c ≠ '_') :
    likeMatch ('%' :: (mid ++ ['%'])) s = true ↔ OccursIn (lowerL mid) (lowerL s) := by
  rw [likeMatch_star]
  constructor
  · rintro ⟨t, ⟨a, rfl⟩, ht⟩
    rw [likeMatch_plain_star mid hp] at ht
    obtain ⟨r, hr⟩ := ht
    refine ⟨lowerL a, r, ?_⟩
    simp only [lowerL, List.map_append] at hr ⊢
    rw [hr, List.append_assoc]
  · rintro ⟨x, y, hxy⟩
    refine ⟨s.drop x.length, ⟨s.take x.length, List.take_append_drop _ s⟩, ?_⟩
    rw [likeMatch_plain_star mid hp]
    refine ⟨y, ?_⟩
    have hmd : lowerL (s.drop x.length) = (lowerL s).drop x.length := by
      simp [lowerL, List.map_drop]
    rw [hmd, hxy, List.append_assoc, List.drop_left]

theorem strLike_contains (mid s : String)
    (hp : ∀ c ∈ mid.data, c ≠ '%' ∧ c ≠ '_') :
    strLike ("%" ++ mid ++ "%") s = true ↔ OccursIn (lowerL mid.data) (lowerL s.data) := by
  have hd : ("%" ++ mid ++ "%").data = '%' :: (mid.data ++ ['%']) := by
    simp [String.data_append]
  rw [strLike, hd]
  exact likeMatch_contains mid.data s.data hp

/-! ### Example fixtures used by witnesses and counterexamples -/

deriving instance DecidableEq for Except

/-- A low-priority ticket created first. -/
def exT1 : Ticket :=
  ⟨1, "/p", "a", "", "pending", "low", "", "2024-01-01T00:00:01", "2024-01-01T00:00:01"⟩

/-- A high-priority ticket created second. -/
def exT2 : Ticket :=
  ⟨2, "/p", "b", "", "pending", "high", "", "2024-01-01T00:00:02", "2024-01-01T00:00:02"⟩

/-- A medium-priority ticket created third. -/
def exT3 : Ticket :=
  ⟨3, "/p", "c", "", "pending", "medium", "", "2024-01-01T00:00:03", "2024-01-01T00:00:03"⟩

/-- A store holding the three example tickets. -/
def exDB : DB := ⟨[exT1, exT2, exT3], [], 4, 1⟩

/-! ### C1 -/

/-- C1: every successful list_tickets call returns exactly the tickets
passing all provided filters (as a permutation of the filtered table, so
each appears exactly once), ordered by priority rank (high before medium
before low) and, within one rank, by created_at descending. -/
theorem list_tickets_sorted_complete
    (project status priority tag : Option String) (db : DB) (r : List Ticket)
    (h : list_tickets project status priority tag db = Except.ok r) :
    r.Perm (db.tickets.filter (matchesListFilters project status priority tag)) ∧
    r.Pairwise (fun a b =>
      priorityRank a.priority < priorityRank b.priority ∨
        (priorityRank a.priority = priorityRank b.priority ∧
          b.created_at ≤ a.created_at)) := by
  unfold list_tickets at h
  split at h
  · exact absurd h (by simp)
  split at h
  · exact absurd h (by simp)
  obtain rfl := Except.ok.inj h
  exact ⟨List.perm_insertionSort ticketRel _, List.sorted_insertionSort ticketRel _⟩

/-- Witness for C1: on the example store (tickets created in order
low, high, medium) the unfiltered listing is high, medium, low. -/
theorem list_tickets_sorted_complete_witness :
    [exT2, exT3, exT1].Perm (exDB.tickets.filter (matchesListFilters none none none none)) ∧
    [exT2, exT3, exT1].Pairwise (fun a b =>
      priorityRank a.priority < priorityRank b.priority ∨
        (priorityRank a.priority = priorityRank b.priority ∧
          b.created_at ≤ a.created_at)) :=
  list_tickets_sorted_complete none none none none exDB [exT2, exT3, exT1] (by decide)

/-! ### C2 -/

/-- The claim's reading of the tag filter: the tag occurs as a standalone
comma-delimited element of the tags string, with virtual comma boundaries
at the start and end of the string. -/
def standaloneTag (t tags : String) : Prop :=
  OccursIn ("," ++ t ++ ",").data ("," ++ tags ++ ",").data

instance (t tags : String) : Decidable (standaloneTag t tags) := by
  unfold standaloneTag; infer_instance

/-- A ticket whose tags string is exactly "bug". -/
def bugT : Ticket :=
  ⟨1, "/p", "t", "", "pending", "medium", "bug", "2024-01-01T00:00:01",
    "2024-01-01T00:00:01"⟩

/-- A store holding only `bugT`. -/
def bugDB : DB := ⟨[bugT], [], 2, 1⟩

/-- Counterexample to C2 as stated: SQLite LIKE is ASCII-case-insensitive,
so the tag filter "BUG" returns the ticket whose tags string is "bug",
although "BUG" does not occur as a standalone comma-delimited element of
"bug". -/
theorem list_tickets_tag_filter_cex :
    list_tickets none none none (some "BUG") bugDB = Except.ok [bugT] ∧
    ¬ standaloneTag "BUG" bugT.tags := by
  constructor
  · decide
  · decide

theorem strLike_eq_of_data {p q : String} (s : String) (h : p.data = q.data) :
    strLike p s = strLike q s := by
  rw [strLike, strLike, h]

/-- C2 amended: for every non-empty tag filter `t` containing no LIKE
wildcard (`%` or `_`), list_tickets with tag filter `t` returns a stored
ticket iff `t` occurs ASCII-case-insensitively as a standalone
comma-delimited element of the ticket's tags string (virtual comma
boundaries at both ends). -/
theorem list_tickets_tag_filter (t : String) (db : DB) (r : List Ticket)
    (tk : Ticket) (hne : t ≠ "")
    (hp : ∀ c ∈ t.data, c ≠ '%' ∧ c ≠ '_')
    (h : list_tickets none none none (some t) db = Except.ok r)
    (htk : tk ∈ db.tickets) :
    tk ∈ r ↔
      OccursIn (lowerL ("," ++ t ++ ",").data)
        (lowerL ("," ++ tk.tags ++ ",").data) := by
  have htr : truthy (some t) = true := by
    simp [truthy, hne]
  unfold list_tickets at h
  rw [if_neg (by simp [truthy]), if_neg (by simp [truthy])] at h
  obtain rfl := Except.ok.inj h
  rw [List.mem_insertionSort, List.mem_filter]
  have hm : matchesListFilters none none none (some t) tk =
      strLike ("%," ++ t ++ ",%") ("," ++ tk.tags ++ ",") := by
    simp [matchesListFilters, truthy, hne]
  rw [hm]
  have hdata : ("%," ++ t ++ ",%").data = ("%" ++ ("," ++ t ++ ",") ++ "%").data := by
    simp only [String.data_append]
    simp [show (",%" : String).data = [',', '%'] from rfl,
      show ("%," : String).data = ['%', ','] from rfl,
      show ("," : String).data = [','] from rfl,
      show ("%" : String).data = ['%'] from rfl]
  rw [strLike_eq_of_data _ hdata]
  have hpmid : ∀ c ∈ ("," ++ t ++ ",").data, c ≠ '%' ∧ c ≠ '_' := by
    intro c hc
    simp only [String.data_append, List.mem_append,
      show ("," : String).data = [','] from rfl, List.mem_singleton] at hc
    rcases hc with hc | hc
    · rcases hc with hc | hc
      · subst hc; exact ⟨by decide, by decide⟩
      · exact hp c hc
    · subst hc; exact ⟨by decide, by decide⟩
  rw [strLike_contains _ _ hpmid]
  simp [htk]

/-- Witness for C2 amended: the filter "BUG" and the tags string "bug"
agree once both are lower-cased. -/
theorem list_tickets_tag_filter_witness :
    bugT ∈ [bugT] ↔
      OccursIn (lowerL ("," ++ "BUG" ++ ",").data)
        (lowerL ("," ++ bugT.tags ++ ",").data) :=
  list_tickets_tag_filter "BUG" bugDB [bugT] bugT (by decide) (by decide)
    (by decide) (by decide)

/-! ### C9 -/

/-- Counterexample to C9 as stated: the empty string lies outside the
enumerated status set, yet list_tickets with status="" succeeds, because
Python truthiness skips the validation of an empty filter. -/
theorem list_tickets_filter_validation_cex :
    list_tickets none (some "") none none emptyDB = Except.ok [] ∧
    VALID_STATUSES.contains "" = false := by
  constructor
  · decide
  · decide

/-- C9 amended: list_tickets fails (with a ValidationError) exactly when a
truthy (present and non-empty) status filter lies outside the status set,
or a truthy priority filter lies outside the priority set; an absent or
empty-string filter is skipped rather than validated. -/
theorem list_tickets_filter_validation
    (project status priority tag : Option String) (db : DB) :
    (∃ e, list_tickets project status priority tag db = Except.error e) ↔
      ((truthy status = true ∧ VALID_STATUSES.contains (status.getD "") = false) ∨
       (truthy priority = true ∧
         VALID_PRIORITIES.contains (priority.getD "") = false)) := by
  unfold list_tickets
  have hA : (truthy status && !(VALID_STATUSES.contains (status.getD ""))) = true ↔
      (truthy status = true ∧ VALID_STATUSES.contains (status.getD "") = false) := by
    simp [Bool.and_eq_true, Bool.not_eq_true']
  have hB : (truthy priority && !(VALID_PRIORITIES.contains (priority.getD ""))) = true ↔
      (truthy priority = true ∧ VALID_PRIORITIES.contains (priority.getD "") = false) := by
    simp [Bool.and_eq_true, Bool.not_eq_true']
  by_cases h1 : truthy status = true ∧ VALID_STATUSES.contains (status.getD "") = false
  · rw [if_pos (hA.mpr h1)]
    exact ⟨fun _ => Or.inl h1, fun _ => ⟨_, rfl⟩⟩
  · rw [if_neg (fun hcond => h1 (hA.mp hcond))]
    by_cases h2 : truthy priority = true ∧
        VALID_PRIORITIES.contains (priority.getD "") = false
    · rw [if_pos (hB.mpr h2)]
      exact ⟨fun _ => Or.inr h2, fun _ => ⟨_, rfl⟩⟩
    · rw [if_neg (fun hcond => h2 (hB.mp hcond))]
      constructor
      · rintro ⟨e, he⟩
        exact absurd he (by simp)
      · rintro (h | h)
        · exact absurd h h1
        · exact absurd h h2

/-! ### C10 -/

/-- C10: when no ticket has the given id, update_ticket returns not-found
and leaves the store untouched, whatever the field arguments are — in
particular no ValidationError is raised for an invalid status or
priority, since the existence check runs first. -/
theorem update_ticket_not_found (ticket_id : Nat)
    (title description status priority tags : Option String)
    (now : String) (db : DB) (h : get_ticket ticket_id db = none) :
    update_ticket ticket_id title description status priority tags now db =
      (db, Except.ok none) := by
  unfold update_ticket
  rw [h]

/-- Witness for C10: updating an absent id with the invalid status
"bogus" returns not-found on the empty store, not an error. -/
theorem update_ticket_not_found_witness :
    update_ticket 99 none none (some "bogus") none none "2024-01-02T00:00:00"
      emptyDB = (emptyDB, Except.ok none) :=
  update_ticket_not_found 99 none none (some "bogus") none none
    "2024-01-02T00:00:00" emptyDB (by decide)

/-! ### C7 -/

/-- C7: delete_ticket returns true exactly when a ticket with the id
existed; afterwards no such ticket and no comment with that ticket_id
remains, get_ticket reports not-found and get_comments is empty. -/
theorem delete_ticket_spec (ticket_id : Nat) (db db2 : DB) (b : Bool)
    (h : delete_ticket ticket_id db = (db2, b)) :
    (b = true ↔ ∃ t ∈ db.tickets, t.id = ticket_id) ∧
    (∀ t ∈ db2.tickets, t.id ≠ ticket_id) ∧
    (∀ c ∈ db2.comments, c.ticket_id ≠ ticket_id) ∧
    get_ticket ticket_id db2 = none ∧
    get_comments ticket_id db2 = [] := by
  unfold delete_ticket at h
  cases h
  refine ⟨?_, ?_, ?_, ?_, ?_⟩
  · simp [List.any_eq_true]
  · intro t ht
    simp only [List.mem_filter, Bool.not_eq_true', beq_eq_false_iff_ne, ne_eq] at ht
    exact ht.2
  · intro c hc
    simp only [List.mem_filter, Bool.not_eq_true', beq_eq_false_iff_ne, ne_eq] at hc
    exact hc.2
  · unfold get_ticket
    rw [List.find?_eq_none.mpr]
    intro t ht
    simp only [List.mem_filter, Bool.not_eq_true', beq_eq_false_iff_ne, ne_eq] at ht
    simp [ht.2]
  · unfold get_comments
    have hz : (db.comments.filter (fun c => !(c.ticket_id == ticket_id))).filter
        (fun c => c.ticket_id == ticket_id) = [] := by
      rw [List.filter_filter]
      apply List.filter_eq_nil_iff.mpr
      intro c _
      simp
    rw [hz]
    rfl

/-- Witness for C7: deleting ticket 1 from the example store reports true
and leaves no trace of it. -/
theorem delete_ticket_spec_witness :
    (true = true ↔ ∃ t ∈ bugDB.tickets, t.id = 1) ∧
    (∀ t ∈ (delete_ticket 1 bugDB).1.tickets, t.id ≠ 1) ∧
    (∀ c ∈ (delete_ticket 1 bugDB).1.comments, c.ticket_id ≠ 1) ∧
    get_ticket 1 (delete_ticket 1 bugDB).1 = none ∧
    get_comments 1 (delete_ticket 1 bugDB).1 = [] :=
  delete_ticket_spec 1 bugDB (delete_ticket 1 bugDB).1 true (by decide)

/-! ### C5 -/

/-- C5: an out-of-set priority makes create_ticket fail with a
ValidationError and leave the store exactly as it was, and an out-of-set
status (checked first) or priority makes update_ticket on an existing
ticket fail likewise with the store unchanged — no row is inserted and no
field is written. -/
theorem validation_no_partial_write :
    (∀ proj ti de p tg now db, VALID_PRIORITIES.contains p = false →
      create_ticket proj ti de p tg now db =
        (db, Except.error (DBErr.invalidPriority p))) ∧
    (∀ ticket_id ti de pr tg s now db ex, get_ticket ticket_id db = some ex →
      VALID_STATUSES.contains s = false →
      update_ticket ticket_id ti de (some s) pr tg now db =
        (db, Except.error (DBErr.invalidStatus s))) ∧
    (∀ ticket_id ti de st tg p now db ex, get_ticket ticket_id db = some ex →
      (∀ s, st = some s → VALID_STATUSES.contains s = true) →
      VALID_PRIORITIES.contains p = false →
      update_ticket ticket_id ti de st (some p) tg now db =
        (db, Except.error (DBErr.invalidPriority p))) := by
  refine ⟨?_, ?_, ?_⟩
  · intro proj ti de p tg now db hp
    unfold create_ticket
    rw [if_pos (show ¬ VALID_PRIORITIES.contains p = true by simpa using hp)]
  · intro ticket_id ti de pr tg s now db ex hget hs
    unfold update_ticket
    rw [hget]
    dsimp only
    rw [if_pos ⟨rfl, by simpa using hs⟩]
    rfl
  · intro ticket_id ti de st tg p now db ex hget hst hp
    unfold update_ticket
    rw [hget]
    dsimp only
    have hc1 : ¬(st.isSome = true ∧
        ¬ VALID_STATUSES.contains (st.getD "") = true) := by
      rintro ⟨h1, h2⟩
      cases st with
      | none => simp at h1
      | some s => exact h2 (by simpa using hst s rfl)
    rw [if_neg hc1, if_pos ⟨rfl, by simpa using hp⟩]
    rfl

/-- Witness for C5: priority "urgent" aborts a create on the empty store;
status "done" and priority "urgent" abort updates of the stored ticket. -/
theorem validation_no_partial_write_witness :
    create_ticket "/p" "T" "D" "urgent" "" "2024-01-02T00:00:00" emptyDB =
      (emptyDB, Except.error (DBErr.invalidPriority "urgent")) ∧
    update_ticket 1 none none (some "done") none none "2024-01-02T00:00:00"
      bugDB = (bugDB, Except.error (DBErr.invalidStatus "done")) ∧
    update_ticket 1 none none (some "closed") (some "urgent") none
      "2024-01-02T00:00:00" bugDB =
      (bugDB, Except.error (DBErr.invalidPriority "urgent")) :=
  ⟨validation_no_partial_write.1 "/p" "T" "D" "urgent" "" "2024-01-02T00:00:00"
      emptyDB (by decide),
   validation_no_partial_write.2.1 1 none none none none "done"
      "2024-01-02T00:00:00" bugDB ⟨bugT, []⟩ (by decide) (by decide),
   validation_no_partial_write.2.2 1 none none (some "closed") none "urgent"
      "2024-01-02T00:00:00" bugDB ⟨bugT, []⟩ (by decide)
      (fun s hs => by injection hs with h; subst h; decide) (by decide)⟩

/-! ### Helper: find? after an id-preserving per-row rewrite -/

theorem find?_map_touch (l : List Ticket) (ticket_id : Nat) (now : String) :
    (l.map fun t =>
        if t.id == ticket_id then { t with updated_at := now } else t).find?
        (fun t => t.id == ticket_id) =
      (l.find? (fun t => t.id == ticket_id)).map
        (fun t => if t.id == ticket_id then { t with updated_at := now } else t) := by
  rw [List.find?_map]
  have hpf : ((fun t : Ticket => t.id == ticket_id) ∘ fun t =>
      if t.id == ticket_id then { t with updated_at := now } else t) =
      (fun t : Ticket => t.id == ticket_id) := by
    funext t
    by_cases ha : (t.id == ticket_id) = true
    · simp [Function.comp, ha]
    · simp [Function.comp, ha]
  rw [hpf]

theorem find?_map_applyUpd (l : List Ticket) (ticket_id : Nat)
    (ti de st pr tg : Option String) (now : String) :
    (l.map fun t =>
        if t.id == ticket_id then applyUpd ti de st pr tg now t else t).find?
        (fun t => t.id == ticket_id) =
      (l.find? (fun t => t.id == ticket_id)).map
        (fun t => if t.id == ticket_id then applyUpd ti de st pr tg now t else t) := by
  rw [List.find?_map]
  have hpf : ((fun t : Ticket => t.id == ticket_id) ∘ fun t =>
      if t.id == ticket_id then applyUpd ti de st pr tg now t else t) =
      (fun t : Ticket => t.id == ticket_id) := by
    funext t
    by_cases ha : (t.id == ticket_id) = true
    · simp [Function.comp, applyUpd, ha]
    · simp [Function.comp, ha]
  rw [hpf]

/-! ### C6 -/

/-- C6: add_comment on a missing ticket id returns not-found and leaves
the store untouched (no orphan comment); on an existing ticket it appends
exactly the new comment row, returns it, and refreshes the owning
ticket's updated_at. -/
theorem add_comment_spec :
    (∀ ticket_id author content now db, get_ticket ticket_id db = none →
      add_comment ticket_id author content now db = (db, none)) ∧
    (∀ ticket_id author content now db ex db2 oc,
      get_ticket ticket_id db = some ex →
      add_comment ticket_id author content now db = (db2, oc) →
      oc = some ⟨db.nextCommentId, ticket_id, author, content, now⟩ ∧
      db2.comments =
        db.comments ++ [⟨db.nextCommentId, ticket_id, author, content, now⟩] ∧
      ∃ v, get_ticket ticket_id db2 = some v ∧ v.ticket.updated_at = now) := by
  constructor
  · intro ticket_id author content now db h
    unfold add_comment
    rw [h]
  · intro ticket_id author content now db ex db2 oc hget h
    unfold add_comment at h
    rw [hget] at h
    cases h
    refine ⟨rfl, rfl, ?_⟩
    unfold get_ticket at hget ⊢
    cases hf : db.tickets.find? (fun t => t.id == ticket_id) with
    | none => rw [hf] at hget; exact absurd hget (by simp)
    | some w =>
      rw [show ({ db with
            comments := db.comments ++
              [⟨db.nextCommentId, ticket_id, author, content, now⟩],
            nextCommentId := db.nextCommentId + 1,
            tickets := db.tickets.map fun t =>
              if t.id == ticket_id then { t with updated_at := now } else t } :
          DB).tickets = db.tickets.map fun t =>
            if t.id == ticket_id then { t with updated_at := now } else t from rfl]
      rw [find?_map_touch db.tickets ticket_id now, hf]
      have hw : w.id = ticket_id := by
        simpa using List.find?_some hf
      refine ⟨_, rfl, ?_⟩
      simp [hw]

/-- Witness for C6: after deleting the only ticket, add_comment reports
not-found and the store is unchanged. -/
theorem add_comment_spec_witness :
    add_comment 1 "user" "note" "2024-01-02T00:00:00"
      (delete_ticket 1 bugDB).1 = ((delete_ticket 1 bugDB).1, none) :=
  add_comment_spec.1 1 "user" "note" "2024-01-02T00:00:00"
    (delete_ticket 1 bugDB).1 (by decide)

/-! ### C4 -/

/-- C4: update_ticket changes exactly the provided fields.  With every
field omitted the call returns the stored ticket with the store (hence
updated_at) untouched; with at least one field provided, the returned
ticket keeps its id, project, created_at and every omitted field, takes
every provided value, and has updated_at refreshed to now. -/
theorem update_ticket_frame :
    (∀ ticket_id now db,
      update_ticket ticket_id none none none none none now db =
        (db, Except.ok (get_ticket ticket_id db))) ∧
    (∀ ticket_id ti de st pr tg now db t0 db2 r,
      get_ticket ticket_id db = some t0 →
      (ti.isSome = true ∨ de.isSome = true ∨ st.isSome = true ∨
        pr.isSome = true ∨ tg.isSome = true) →
      update_ticket ticket_id ti de st pr tg now db =
        (db2, Except.ok (some r)) →
      r.ticket.id = t0.ticket.id ∧
      r.ticket.project = t0.ticket.project ∧
      r.ticket.created_at = t0.ticket.created_at ∧
      r.ticket.title = ti.getD t0.ticket.title ∧
      r.ticket.description = de.getD t0.ticket.description ∧
      r.ticket.status = st.getD t0.ticket.status ∧
      r.ticket.priority = pr.getD t0.ticket.priority ∧
      r.ticket.tags = tg.getD t0.ticket.tags ∧
      r.ticket.updated_at = now) := by
  constructor
  · intro ticket_id now db
    unfold update_ticket
    cases hg : get_ticket ticket_id db with
    | none => rfl
    | some ex =>
      dsimp only
      rw [if_neg (by simp), if_neg (by simp), if_pos ⟨rfl, rfl, rfl, rfl, rfl⟩]
  · intro ticket_id ti de st pr tg now db t0 db2 r hget hprov h
    unfold update_ticket at h
    rw [hget] at h
    dsimp only at h
    split_ifs at h with h1 h2 h3
    · exact absurd (congrArg Prod.snd h) (by simp)
    · exact absurd (congrArg Prod.snd h) (by simp)
    · obtain ⟨n1, n2, n3, n4, n5⟩ := h3
      rcases hprov with hp | hp | hp | hp | hp <;>
        simp_all [Option.isNone_iff_eq_none]
    · rw [Prod.mk.injEq] at h
      obtain ⟨hdb, hr⟩ := h
      have hr2 := Except.ok.inj hr
      unfold get_ticket at hget
      cases hf : db.tickets.find? (fun t => t.id == ticket_id) with
      | none => rw [hf] at hget; exact absurd hget (by simp)
      | some w =>
        rw [hf] at hget
        obtain rfl := Option.some.inj hget
        unfold get_ticket at hr2
        dsimp only at hr2
        rw [find?_map_applyUpd db.tickets ticket_id ti de st pr tg now, hf] at hr2
        have hw : w.id = ticket_id := by
          simpa using List.find?_some hf
        rw [show Option.map (fun t => if t.id == ticket_id then
            applyUpd ti de st pr tg now t else t) (some w) =
            some (if w.id == ticket_id then applyUpd ti de st pr tg now w else w)
          from rfl] at hr2
        dsimp only at hr2
        have hr3 := Option.some.inj hr2
        rw [if_pos (show (w.id == ticket_id) = true by simpa using hw)] at hr3
        subst hr3
        simp [applyUpd]

/-- The stored ticket of `bugDB` after update_ticket sets its status to
closed at the later timestamp. -/
def bugTClosed : Ticket :=
  ⟨1, "/p", "t", "", "closed", "medium", "bug", "2024-01-01T00:00:01",
    "2024-01-02T00:00:00"⟩

/-- Witness for C4: setting only status on the stored ticket keeps every
other field, takes the provided status, and refreshes updated_at. -/
theorem update_ticket_frame_witness :
    bugTClosed.id = bugT.id ∧
    bugTClosed.project = bugT.project ∧
    bugTClosed.created_at = bugT.created_at ∧
    bugTClosed.title = (Option.none).getD bugT.title ∧
    bugTClosed.description = (Option.none).getD bugT.description ∧
    bugTClosed.status = (some "closed").getD bugT.status ∧
    bugTClosed.priority = (Option.none).getD bugT.priority ∧
    bugTClosed.tags = (Option.none).getD bugT.tags ∧
    bugTClosed.updated_at = "2024-01-02T00:00:00" :=
  update_ticket_frame.2 1 none none (some "closed") none none
    "2024-01-02T00:00:00" bugDB ⟨bugT, []⟩ ⟨[bugTClosed], [], 2, 1⟩
    ⟨bugTClosed, []⟩ (by decide) (Or.inr (Or.inr (Or.inl rfl))) (by decide)

/-! ### C8 -/

/-- The id invariant of the store: every stored ticket id is below the
AUTOINCREMENT counter.  It holds for the fresh store and, as C8's theorem
shows, is preserved by every mutating operation. -/
def WfT (db : DB) : Prop := ∀ t ∈ db.tickets, t.id < db.nextTicketId

instance (db : DB) : Decidable (WfT db) := by
  unfold WfT; infer_instance

/-- C8: on an invariant-respecting store, a successful create_ticket
returns a ticket with status pending, created_at equal to updated_at, and
the fresh counter value as id — strictly above every id ever handed out;
and every mutating operation preserves the invariant while never
decreasing the counter, so ids are unique and monotone over the store's
lifetime. -/
theorem create_ticket_id_monotone :
    (∀ proj ti de p tg now db db2 res, WfT db →
      create_ticket proj ti de p tg now db = (db2, res) →
      db.nextTicketId ≤ db2.nextTicketId ∧ WfT db2 ∧
      ∀ v, res = Except.ok (some v) →
        v.ticket.id = db.nextTicketId ∧
        v.ticket.status = "pending" ∧
        v.ticket.created_at = v.ticket.updated_at ∧
        ∀ t ∈ db.tickets, t.id < v.ticket.id) ∧
    (∀ ticket_id ti de st pr tg now db db2 res, WfT db →
      update_ticket ticket_id ti de st pr tg now db = (db2, res) →
      db2.nextTicketId = db.nextTicketId ∧ WfT db2) ∧
    (∀ ticket_id db db2 b, WfT db → delete_ticket ticket_id db = (db2, b) →
      db2.nextTicketId = db.nextTicketId ∧ WfT db2) ∧
    (∀ ticket_id a c now db db2 oc, WfT db →
      add_comment ticket_id a c now db = (db2, oc) →
      db2.nextTicketId = db.nextTicketId ∧ WfT db2) := by
  refine ⟨?_, ?_, ?_, ?_⟩
  · intro proj ti de p tg now db db2 res hwf h
    unfold create_ticket at h
    split_ifs at h with hv
    · cases h
      refine ⟨Nat.le_succ _, ?_, ?_⟩
      · intro t ht
        rcases List.mem_append.mp ht with ht | ht
        · exact Nat.lt_succ_of_lt (hwf t ht)
        · rw [List.mem_singleton.mp ht]
          exact Nat.lt_succ_self _
      · intro v hv2
        have hv3 := Except.ok.inj hv2
        unfold get_ticket at hv3
        dsimp only at hv3
        rw [List.find?_append, List.find?_eq_none.mpr] at hv3
        · simp only [Option.none_or, List.find?_singleton, beq_self_eq_true,
            if_true] at hv3
          obtain rfl := Option.some.inj hv3
          exact ⟨rfl, rfl, rfl, fun t ht => hwf t ht⟩
        · intro t ht
          simp only [beq_iff_eq]
          exact Nat.ne_of_lt (hwf t ht)
    · cases h
      exact ⟨le_refl _, hwf, fun v hv2 => absurd hv2 (by simp)⟩
  · intro ticket_id ti de st pr tg now db db2 res hwf h
    unfold update_ticket at h
    cases hg : get_ticket ticket_id db with
    | none => rw [hg] at h; cases h; exact ⟨rfl, hwf⟩
    | some ex =>
      rw [hg] at h
      dsimp only at h
      split_ifs at h with h1 h2 h3 <;> cases h
      · exact ⟨rfl, hwf⟩
      · exact ⟨rfl, hwf⟩
      · exact ⟨rfl, hwf⟩
      · refine ⟨rfl, ?_⟩
        intro t ht
        obtain ⟨u, hu, hut⟩ := List.mem_map.mp ht
        have : t.id = u.id := by
          rw [← hut]
          by_cases hc : (u.id == ticket_id) = true
          · rw [if_pos hc]; rfl
          · rw [if_neg hc]
        rw [this]
        exact hwf u hu
  · intro ticket_id db db2 b hwf h
    unfold delete_ticket at h
    cases h
    exact ⟨rfl, fun t ht => hwf t (List.mem_filter.mp ht).1⟩
  · intro ticket_id a c now db db2 oc hwf h
    unfold add_comment at h
    cases hg : get_ticket ticket_id db with
    | none => rw [hg] at h; cases h; exact ⟨rfl, hwf⟩
    | some ex =>
      rw [hg] at h
      cases h
      refine ⟨rfl, ?_⟩
      intro t ht
      obtain ⟨u, hu, hut⟩ := List.mem_map.mp ht
      have : t.id = u.id := by
        rw [← hut]
        by_cases hc : (u.id == ticket_id) = true
        · rw [if_pos hc]
        · rw [if_neg hc]
      rw [this]
      exact hwf u hu

/-- The ticket and store produced by the first create on the empty store. -/
def exCreatedT : Ticket :=
  ⟨1, "/p", "T", "D", "pending", "medium", "", "2024-01-01T00:00:01",
    "2024-01-01T00:00:01"⟩

/-- The store after that first create. -/
def exCreatedDB : DB := ⟨[exCreatedT], [], 2, 1⟩

/-- Witness for C8: creating the first ticket on the empty store returns
id 1 with status pending and equal timestamps, and the invariant holds
afterwards. -/
theorem create_ticket_id_monotone_witness :
    emptyDB.nextTicketId ≤ exCreatedDB.nextTicketId ∧ WfT exCreatedDB ∧
    ∀ v, (Except.ok (get_ticket 1 exCreatedDB) :
        Except DBErr (Option TicketView)) = Except.ok (some v) →
      v.ticket.id = emptyDB.nextTicketId ∧
      v.ticket.status = "pending" ∧
      v.ticket.created_at = v.ticket.updated_at ∧
      ∀ t ∈ emptyDB.tickets, t.id < v.ticket.id :=
  create_ticket_id_monotone.1 "/p" "T" "D" "medium" "" "2024-01-01T00:00:01"
    emptyDB exCreatedDB (Except.ok (get_ticket 1 exCreatedDB))
    (by decide) (by decide)

/-! ### C3 -/

/-- The claim's substring relation between strings. -/
def substrOf (q s : String) : Prop := OccursIn q.data s.data

instance (q s : String) : Decidable (substrOf q s) := by
  unfold substrOf; infer_instance

/-- The claim's reading of a search hit: the query is a substring of the
title, the description, the tags string, or the content of at least one
of the ticket's comments. -/
def searchClaimMatch (q : String) (db : DB) (t : Ticket) : Prop :=
  substrOf q t.title ∨ substrOf q t.description ∨ substrOf q t.tags ∨
    ∃ c ∈ db.comments, c.ticket_id = t.id ∧ substrOf q c.content

instance (q : String) (db : DB) (t : Ticket) :
    Decidable (searchClaimMatch q db t) := by
  unfold searchClaimMatch; infer_instance

/-- What the code's LIKE tests amount to for a wildcard-free query: the
lower-cased query occurs in the lower-cased title, description, tags, or
content of one of the ticket's comments. -/
def searchLowerMatch (q : String) (db : DB) (t : Ticket) : Prop :=
  OccursIn (lowerL q.data) (lowerL t.title.data) ∨
  OccursIn (lowerL q.data) (lowerL t.description.data) ∨
  OccursIn (lowerL q.data) (lowerL t.tags.data) ∨
    ∃ c ∈ db.comments, c.ticket_id = t.id ∧
      OccursIn (lowerL q.data) (lowerL c.content.data)

/-- A ticket whose only occurrence of "foo" (in any casing) is the title. -/
def fooT : Ticket :=
  ⟨1, "/p", "foo", "", "pending", "medium", "", "2024-01-01T00:00:01",
    "2024-01-01T00:00:01"⟩

/-- A store holding only `fooT`. -/
def fooDB : DB := ⟨[fooT], [], 2, 1⟩

/-- Counterexample to C3 as stated: the search uses SQLite LIKE, which is
ASCII-case-insensitive, so searching "FOO" returns the ticket titled
"foo" although "FOO" is not a substring of any of its fields or
comments. -/
theorem search_tickets_cex :
    search_tickets "FOO" none none fooDB = Except.ok [fooT] ∧
    ¬ searchClaimMatch "FOO" fooDB fooT := by
  constructor
  · decide
  · decide

theorem mem_leftJoinRows (db : DB) (t : Ticket) (oc : Option Comment) :
    ((t, oc) ∈ leftJoinRows db) ↔ (t ∈ db.tickets ∧
      (((db.comments.filter (fun c => c.ticket_id == t.id)).isEmpty = true ∧
          oc = none) ∨
       ∃ c, oc = some c ∧
         c ∈ db.comments.filter (fun c => c.ticket_id == t.id))) := by
  unfold leftJoinRows
  rw [List.mem_flatMap]
  constructor
  · rintro ⟨u, hu, hrow⟩
    dsimp only at hrow
    by_cases hcs : (db.comments.filter (fun c => c.ticket_id == u.id)).isEmpty = true
    · rw [if_pos hcs] at hrow
      simp only [List.mem_singleton, Prod.mk.injEq] at hrow
      obtain ⟨rfl, rfl⟩ := hrow
      exact ⟨hu, Or.inl ⟨hcs, rfl⟩⟩
    · rw [if_neg hcs] at hrow
      simp only [List.mem_map, Prod.mk.injEq] at hrow
      obtain ⟨c, hc, rfl, rfl⟩ := hrow
      exact ⟨hu, Or.inr ⟨c, rfl, hc⟩⟩
  · rintro ⟨ht, hcase⟩
    refine ⟨t, ht, ?_⟩
    dsimp only
    rcases hcase with ⟨hemp, rfl⟩ | ⟨c, rfl, hc⟩
    · rw [if_pos hemp]
      exact List.mem_singleton.mpr rfl
    · rw [if_neg ?_]
      · exact List.mem_map.mpr ⟨c, hc, rfl⟩
      · intro hemp
        rw [List.isEmpty_iff.mp hemp] at hc
        cases hc

theorem exists_row_rowMatches (db : DB) (t : Ticket) (q : String)
    (ht : t ∈ db.tickets) :
    (∃ oc, (t, oc) ∈ leftJoinRows db ∧ rowMatches q (t, oc) = true) ↔
      (strLike ("%" ++ q ++ "%") t.title = true ∨
       strLike ("%" ++ q ++ "%") t.description = true ∨
       strLike ("%" ++ q ++ "%") t.tags = true ∨
       ∃ c ∈ db.comments, c.ticket_id = t.id ∧
         strLike ("%" ++ q ++ "%") c.content = true) := by
  constructor
  · rintro ⟨oc, hmem, hm⟩
    rw [mem_leftJoinRows] at hmem
    obtain ⟨-, hcase⟩ := hmem
    unfold rowMatches at hm
    rcases hcase with ⟨hemp, rfl⟩ | ⟨c, rfl, hc⟩
    · simp only [Bool.or_eq_true] at hm
      rcases hm with ((hA | hB) | hC) | hF
      · exact Or.inl hA
      · exact Or.inr (Or.inl hB)
      · exact Or.inr (Or.inr (Or.inl hC))
      · exact absurd hF (by simp)
    · simp only [Bool.or_eq_true] at hm
      obtain ⟨hcm, hcid⟩ := List.mem_filter.mp hc
      rcases hm with ((hA | hB) | hC) | hD
      · exact Or.inl hA
      · exact Or.inr (Or.inl hB)
      · exact Or.inr (Or.inr (Or.inl hC))
      · exact Or.inr (Or.inr (Or.inr ⟨c, hcm, by simpa using hcid, hD⟩))
  · have hrowmem : ∀ oc, ((db.comments.filter
        (fun c => c.ticket_id == t.id)).isEmpty = true ∧ oc = none) ∨
        (∃ c, oc = some c ∧
          c ∈ db.comments.filter (fun c => c.ticket_id == t.id)) →
        (t, oc) ∈ leftJoinRows db :=
      fun oc hcase => (mem_leftJoinRows db t oc).mpr ⟨ht, hcase⟩
    rintro (hA | hB | hC | ⟨c, hcm, hcid, hD⟩)
    · by_cases hcs : (db.comments.filter (fun c => c.ticket_id == t.id)).isEmpty = true
      · exact ⟨none, hrowmem none (Or.inl ⟨hcs, rfl⟩),
          by unfold rowMatches; simp [hA]⟩
      · obtain ⟨c0, hc0⟩ := List.exists_mem_of_ne_nil
          (db.comments.filter (fun c => c.ticket_id == t.id))
          (fun hnil => hcs (by rw [hnil]; rfl))
        exact ⟨some c0, hrowmem (some c0) (Or.inr ⟨c0, rfl, hc0⟩),
          by unfold rowMatches; simp [hA]⟩
    · by_cases hcs : (db.comments.filter (fun c => c.ticket_id == t.id)).isEmpty = true
      · exact ⟨none, hrowmem none (Or.inl ⟨hcs, rfl⟩),
          by unfold rowMatches; simp [hB]⟩
      · obtain ⟨c0, hc0⟩ := List.exists_mem_of_ne_nil
          (db.comments.filter (fun c => c.ticket_id == t.id))
          (fun hnil => hcs (by rw [hnil]; rfl))
        exact ⟨some c0, hrowmem (some c0) (Or.inr ⟨c0, rfl, hc0⟩),
          by unfold rowMatches; simp [hB]⟩
    · by_cases hcs : (db.comments.filter (fun c => c.ticket_id == t.id)).isEmpty = true
      · exact ⟨none, hrowmem none (Or.inl ⟨hcs, rfl⟩),
          by unfold rowMatches; simp [hC]⟩
      · obtain ⟨c0, hc0⟩ := List.exists_mem_of_ne_nil
          (db.comments.filter (fun c => c.ticket_id == t.id))
          (fun hnil => hcs (by rw [hnil]; rfl))
        exact ⟨some c0, hrowmem (some c0) (Or.inr ⟨c0, rfl, hc0⟩),
          by unfold rowMatches; simp [hC]⟩
    · refine ⟨some c, hrowmem (some c)
        (Or.inr ⟨c, rfl, List.mem_filter.mpr ⟨hcm, by simpa using hcid⟩⟩), ?_⟩
      unfold rowMatches
      simp [hD]

/-- C3 amended: for every wildcard-free query q, a successful
search_tickets call returns exactly the stored tickets passing the
optional project and status filters whose lower-cased title, description,
tags, or some owned comment's lower-cased content contains the
lower-cased q (SQLite LIKE is ASCII-case-insensitive); each such ticket
appears exactly once, and the result is ordered as list_tickets orders,
by priority rank then created_at descending. -/
theorem search_tickets_characterisation (q : String)
    (project status : Option String) (db : DB) (r : List Ticket)
    (hq : ∀ c ∈ q.data, c ≠ '%' ∧ c ≠ '_')
    (h : search_tickets q project status db = Except.ok r) :
    (∀ t, t ∈ r ↔ t ∈ db.tickets ∧ searchLowerMatch q db t ∧
        matchesListFilters project status none none t = true) ∧
    (∀ t ∈ r, r.count t = 1) ∧
    r.Pairwise (fun a b =>
      priorityRank a.priority < priorityRank b.priority ∨
        (priorityRank a.priority = priorityRank b.priority ∧
          b.created_at ≤ a.created_at)) := by
  unfold search_tickets at h
  split at h
  · exact absurd h (by simp)
  obtain rfl := Except.ok.inj h
  have hmlf : ∀ t : Ticket, matchesListFilters project status none none t = true ↔
      ((!truthy project || t.project == project.getD "") = true ∧
       (!truthy status || t.status == status.getD "") = true) := by
    intro t
    unfold matchesListFilters
    simp only [truthy, Bool.not_false, Bool.true_or, Bool.and_true,
      Bool.and_eq_true]
  have hconv : ∀ t : Ticket,
      (strLike ("%" ++ q ++ "%") t.title = true ∨
       strLike ("%" ++ q ++ "%") t.description = true ∨
       strLike ("%" ++ q ++ "%") t.tags = true ∨
       ∃ c ∈ db.comments, c.ticket_id = t.id ∧
         strLike ("%" ++ q ++ "%") c.content = true) ↔
      searchLowerMatch q db t := by
    intro t
    unfold searchLowerMatch
    rw [strLike_contains q t.title hq, strLike_contains q t.description hq,
      strLike_contains q t.tags hq]
    refine or_congr Iff.rfl (or_congr Iff.rfl (or_congr Iff.rfl ?_))
    exact exists_congr fun c => and_congr Iff.rfl
      (and_congr Iff.rfl (strLike_contains q c.content hq))
  refine ⟨?_, ?_, List.sorted_insertionSort ticketRel _⟩
  · intro t
    rw [List.mem_insertionSort, List.mem_dedup, List.mem_map]
    constructor
    · rintro ⟨⟨t1, oc⟩, hrow, rfl⟩
      rw [List.mem_filter] at hrow
      obtain ⟨hr1, hr2⟩ := hrow
      simp only [Bool.and_eq_true] at hr2
      obtain ⟨⟨hrm, hp1⟩, hp2⟩ := hr2
      have ht1 : t1 ∈ db.tickets := ((mem_leftJoinRows db t1 oc).mp hr1).1
      refine ⟨ht1, ?_, (hmlf t1).mpr ⟨hp1, hp2⟩⟩
      exact (hconv t1).mp ((exists_row_rowMatches db t1 q ht1).mp
        ⟨oc, hr1, hrm⟩)
    · rintro ⟨ht, hsl, hf⟩
      obtain ⟨oc, hmem, hrm⟩ :=
        (exists_row_rowMatches db t q ht).mpr ((hconv t).mpr hsl)
      obtain ⟨hp1, hp2⟩ := (hmlf t).mp hf
      refine ⟨(t, oc), List.mem_filter.mpr ⟨hmem, ?_⟩, rfl⟩
      simp [hrm, hp1, hp2]
  · intro t htr
    have hperm := List.perm_insertionSort ticketRel
      ((((leftJoinRows db).filter fun r =>
          rowMatches q r &&
          (!truthy project || r.1.project == project.getD "") &&
          (!truthy status || r.1.status == status.getD "")).map Prod.fst).dedup)
    rw [hperm.count_eq]
    exact List.count_eq_one_of_mem (List.nodup_dedup _)
      (hperm.mem_iff.mp htr)

/-- Witness for C3 amended: searching "FOO" on the store of `fooT`
behaves as the lower-cased containment predicate dictates. -/
theorem search_tickets_characterisation_witness :
    (∀ t, t ∈ [fooT] ↔ t ∈ fooDB.tickets ∧ searchLowerMatch "FOO" fooDB t ∧
        matchesListFilters none none none none t = true) ∧
    (∀ t ∈ [fooT], [fooT].count t = 1) ∧
    ([fooT]).Pairwise (fun a b =>
      priorityRank a.priority < priorityRank b.priority ∨
        (priorityRank a.priority = priorityRank b.priority ∧
          b.created_at ≤ a.created_at)) :=
  search_tickets_characterisation "FOO" none none fooDB [fooT]
    (by decide) (by decide)

end TicketsDB
